import Mathlib

/-!
Verification of the Airtable MCP server HTTP client adapter
(`src/airtable_mcp/client.py`) and its tool-facing glue
(`src/airtable_mcp/server.py`).

The client is embedded shallowly: each operation is split into a pure
request builder (the request the Python method hands to the HTTP session)
and a pure response handler (what the method does with the `httpx.Response`
it gets back).  Python exceptions are modelled by an `Except PyErr`
result, where `PyErr.airtable` is the repository type `AirtableError` and the
other constructors are the unnormalized built-in exceptions Python would
raise on the same path (`AttributeError`, `KeyError`, `IndexError`,
`TypeError`).  JSON payloads are a plain inductive; `httpx.Response.json()`
is the `body` field of the `Response` structure and `.text` its raw text.
-/

namespace AirtableMCP

/-- JSON values, as produced by `response.json()`.  Numbers are modelled as
integers (every value the claims exercise is an integer). -/
inductive Json where
  | null
  | bool (b : Bool)
  | num (n : Int)
  | str (s : String)
  | arr (elems : List Json)
  | obj (members : List (String × Json))

/-- Python exceptions raised along the modelled paths.  `airtable` is the
repository single error type `AirtableError`; the rest are Python
built-ins that escape unnormalized. -/
inductive PyErr where
  | airtable (msg : String)
  | attrError (attr : String)
  | keyError (key : String)
  | indexError
  | typeError
  deriving Repr, DecidableEq

/-- True exactly when the raised exception is an `AirtableError`. -/
def PyErr.isAirtable : PyErr → Bool
  | .airtable _ => true
  | _ => false

/-- Python `d.get(key, default)`: defined on dicts only; calling `.get` on a
non-dict JSON value raises `AttributeError`. -/
def dictGet (j : Json) (key : String) (default : Json) : Except PyErr Json :=
  match j with
  | .obj ms => .ok ((ms.lookup key).getD default)
  | _ => .error (.attrError "get")

/-- Python `d[key]` subscription on a parsed JSON value with a string key:
`KeyError` when the key is missing from a dict, `TypeError` on values that
do not accept string subscripts. -/
def dictGetItem (j : Json) (key : String) : Except PyErr Json :=
  match j with
  | .obj ms =>
    match ms.lookup key with
    | some v => .ok v
    | none => .error (.keyError key)
  | _ => .error .typeError

/-- Python `x[i]` subscription with a non-negative integer index:
`IndexError` past the end of a list or string, `KeyError` on a dict without
that key, `TypeError` otherwise. -/
def pyIndex (j : Json) (i : Nat) : Except PyErr Json :=
  match j with
  | .arr xs =>
    match xs.get? i with
    | some v => .ok v
    | none => .error .indexError
  | .str s =>
    match s.data.get? i with
    | some c => .ok (.str (String.mk [c]))
    | none => .error .indexError
  | .obj _ => .error (.keyError (toString i))
  | _ => .error .typeError

mutual

/-- Python `repr()` of a parsed JSON value (strings keep their quotes),
used for elements of containers; escaping inside repr of strings is not
modelled — no theorem below depends on container rendering. -/
def pyRepr : Json → String
  | .null => "None"
  | .bool b => if b then "True" else "False"
  | .num n => toString n
  | .str s => "\x27" ++ s ++ "\x27"
  | .arr xs => "[" ++ pyReprList xs ++ "]"
  | .obj ms => "\x7b" ++ pyReprMembers ms ++ "\x7d"

/-- Comma-separated reprs of list elements. -/
def pyReprList : List Json → String
  | [] => ""
  | [x] => pyRepr x
  | x :: y :: xs => pyRepr x ++ ", " ++ pyReprList (y :: xs)

/-- Comma-separated reprs of dict entries. -/
def pyReprMembers : List (String × Json) → String
  | [] => ""
  | [kv] => "\x27" ++ kv.1 ++ "\x27: " ++ pyRepr kv.2
  | kv :: kw :: ms => "\x27" ++ kv.1 ++ "\x27: " ++ pyRepr kv.2 ++ ", " ++ pyReprMembers (kw :: ms)

end

/-- Python `str()` of a parsed JSON value, as interpolated by the f-string
in the 422 branch.  `str()` agrees with `repr()` except on top-level
strings, which lose their quotes. -/
def pyStr : Json → String
  | .str s => s
  | j => pyRepr j

/-- An `httpx.Response` as seen by the client: its status code, the value
`response.json()` parses to, and the raw `response.text`. -/
structure Response where
  status_code : Nat
  body : Json
  text : String

/-- The `httpx` success predicate `response.is_success`: status in the 2xx
range. -/
def is_success (status : Nat) : Bool := decide (200 ≤ status) && decide (status < 300)

/-- Fixed API origin, `BASE_URL` in `client.py`. -/
def BASE_URL : String := "https://api.airtable.com/v0"

/-- The message of the configuration-missing `AirtableError` raised by
`AirtableClient.__init__`. -/
def configMissingMsg : String :=
  "AIRTABLE_API_KEY environment variable is required. " ++
  "Get your API key at https://airtable.com/create/tokens"

/-- The `AirtableClient._handle_error` method: a chain of status checks,
each raising an `AirtableError` (since `raise` exits the method, the
sequence of `if` statements is an if/else chain).  For a 422 status the
body is inspected via `response.json().get("error", {})` and
`.get("message", "Unknown error")`; for any other unmapped non-2xx status
a generic error carries the status code and raw text.  `Except.ok ()`
models falling through without raising. -/
def handle_error (r : Response) : Except PyErr Unit :=
  if r.status_code = 401 then
    .error (.airtable "Invalid API key. Check your AIRTABLE_API_KEY.")
  else if r.status_code = 403 then
    .error (.airtable "Permission denied. Your API key lacks access to this resource.")
  else if r.status_code = 404 then
    .error (.airtable "Not found. Check that the base/table/record ID is correct.")
  else if r.status_code = 422 then
    match dictGet r.body "error" (.obj []) with
    | .error e => .error e
    | .ok errVal =>
      match dictGet errVal "message" (.str "Unknown error") with
      | .error e => .error e
      | .ok m => .error (.airtable ("Invalid request: " ++ pyStr m))
  else if r.status_code = 429 then
    .error (.airtable "Rate limited. Airtable allows 5 requests/second. Wait and retry.")
  else if !(is_success r.status_code) then
    .error (.airtable ("Airtable API error: " ++ toString r.status_code ++ " - " ++ r.text))
  else
    .ok ()

/-- The lazily created `httpx.AsyncClient` session: base URL, the two fixed
headers, and the fixed 30-second timeout, exactly as built in
`AirtableClient._get_client`. -/
structure Session where
  base_url : String
  auth_header : String
  content_type : String
  timeout : Nat
  deriving Repr, DecidableEq

/-- The session `_get_client` constructs for a given API key. -/
def newSession (api_key : String) : Session :=
  { base_url := BASE_URL
    auth_header := "Bearer " ++ api_key
    content_type := "application/json"
    timeout := 30 }

/-- The `AirtableClient` instance state: its stored key and the optional
`_client` session field. -/
structure AirtableClient where
  api_key : String
  session : Option Session
  deriving Repr, DecidableEq

/-- Python `a or b` on `str | None` operands: `a` when truthy (non-`None`
and non-empty), else `b`. -/
def pyOrStr (a b : Option String) : Option String :=
  match a with
  | some s => if s = "" then b else some s
  | none => b

/-- The constructor `AirtableClient.__init__`: resolves the key as
`api_key or os.environ.get("AIRTABLE_API_KEY")` and raises the
configuration-missing `AirtableError` when the result is falsy (absent or
empty).  `env_api_key` is the value of the environment variable (`none`
when unset).  No session is constructed here: the `_client` field starts
out absent. -/
def AirtableClient.init (api_key : Option String) (env_api_key : Option String) :
    Except PyErr AirtableClient :=
  match pyOrStr api_key env_api_key with
  | none => .error (.airtable configMissingMsg)
  | some s =>
    if s = "" then .error (.airtable configMissingMsg)
    else .ok { api_key := s, session := none }

/-- The `_get_client` method: returns the existing session, or constructs
and stores one when the field is absent.  Returns the updated client state
together with the session handed back. -/
def AirtableClient.get_client (c : AirtableClient) : AirtableClient × Session :=
  match c.session with
  | some s => (c, s)
  | none =>
    let s := newSession c.api_key
    ({ c with session := some s }, s)

/-- The `close` method: when a session exists it is closed and the field
reset to absent; when none exists nothing happens. -/
def AirtableClient.close (c : AirtableClient) : AirtableClient :=
  match c.session with
  | some _ => { c with session := none }
  | none => c

/-- An HTTP request as handed to the session: method, path relative to the
base URL, query parameters in insertion order, and optional JSON body. -/
structure Request where
  method : String
  path : String
  params : List (String × Json)
  body : Option Json

/-- Request sent by `list_bases`. -/
def list_bases_request : Request :=
  { method := "GET", path := "/meta/bases", params := [], body := none }

/-- Response handling of `list_bases`: error check, then
`response.json().get("bases", [])`. -/
def list_bases_result (r : Response) : Except PyErr Json :=
  match handle_error r with
  | .error e => .error e
  | .ok _ => dictGet r.body "bases" (.arr [])

/-- Request sent by `list_tables`. -/
def list_tables_request (base_id : String) : Request :=
  { method := "GET", path := "/meta/bases/" ++ base_id ++ "/tables", params := [], body := none }

/-- Response handling of `list_tables`: error check, then
`response.json().get("tables", [])`. -/
def list_tables_result (r : Response) : Except PyErr Json :=
  match handle_error r with
  | .error e => .error e
  | .ok _ => dictGet r.body "tables" (.arr [])

/-- Request sent by `list_records`: the `params` dict starts empty and gains
`maxRecords` and then `filterByFormula` exactly when the corresponding
optional argument is not `None`, values passed through unmodified. -/
def list_records_request (base_id table_id_or_name : String)
    (max_records : Option Int) (filter_formula : Option String) : Request :=
  { method := "GET"
    path := "/" ++ base_id ++ "/" ++ table_id_or_name
    params :=
      (match max_records with
       | some m => [("maxRecords", Json.num m)]
       | none => []) ++
      (match filter_formula with
       | some f => [("filterByFormula", Json.str f)]
       | none => [])
    body := none }

/-- Response handling of `list_records`: error check, then
`response.json().get("records", [])`. -/
def list_records_result (r : Response) : Except PyErr Json :=
  match handle_error r with
  | .error e => .error e
  | .ok _ => dictGet r.body "records" (.arr [])

/-- Request sent by `create_record`: a POST whose payload wraps the fields
as `\x7b"records": [\x7b"fields": fields\x7d]\x7d`. -/
def create_record_request (base_id table_id_or_name : String) (fields : Json) : Request :=
  { method := "POST"
    path := "/" ++ base_id ++ "/" ++ table_id_or_name
    params := []
    body := some (.obj [("records", .arr [.obj [("fields", fields)]])]) }

/-- Response handling of `create_record`: error check, then
`response.json()["records"][0]` — plain subscription, so a missing
`records` key or an empty array raises an unnormalized Python error. -/
def create_record_result (r : Response) : Except PyErr Json :=
  match handle_error r with
  | .error e => .error e
  | .ok _ =>
    match dictGetItem r.body "records" with
    | .error e => .error e
    | .ok recs => pyIndex recs 0

/-- Request sent by `update_record`: a PATCH to the record-scoped path with
payload `\x7b"fields": fields\x7d`. -/
def update_record_request (base_id table_id_or_name record_id : String)
    (fields : Json) : Request :=
  { method := "PATCH"
    path := "/" ++ base_id ++ "/" ++ table_id_or_name ++ "/" ++ record_id
    params := []
    body := some (.obj [("fields", fields)]) }

/-- Response handling of `update_record`: error check, then the whole JSON
payload is returned as-is. -/
def update_record_result (r : Response) : Except PyErr Json :=
  match handle_error r with
  | .error e => .error e
  | .ok _ => .ok r.body

/-- The `list_records` tool of `server.py`: its signature gives
`max_records` the integer default `100` (not `None`) and `filter_formula`
the default `None`, and it forwards both to the client method `list_records`.
So the client is always called with `max_records` present. -/
def server_list_records (base_id table_id_or_name : String)
    (max_records : Int := 100) (filter_formula : Option String := none) : Request :=
  list_records_request base_id table_id_or_name (some max_records) filter_formula

/-- Atomic steps of one operation as scheduled by the asyncio event loop.
A coroutine only yields control at an `await` that actually suspends; the
body of `_get_client` contains no suspension point (constructing the
`httpx.AsyncClient` is synchronous), so the check-and-set on `_client`
runs as one atomic step, followed by the suspending network send. -/
inductive Action where
  | acquire
  | send
  deriving Repr, DecidableEq

/-- Shared interleaving state: the client object and a count of how many
`httpx.AsyncClient` sessions have been constructed so far. -/
structure ConcState where
  client : AirtableClient
  sessions_created : Nat
  deriving Repr, DecidableEq

/-- Effect of one atomic step on the shared state: `acquire` is the body of
`_get_client` (create and store a session only when the field is absent);
`send` performs network I/O and leaves the client state alone. -/
def concStep (s : ConcState) : Action → ConcState
  | .acquire =>
    match s.client.session with
    | some _ => s
    | none =>
      { client := (s.client.get_client).1
        sessions_created := s.sessions_created + 1 }
  | .send => s

/-- Run a schedule of atomic steps from a starting state. -/
def concRun (s : ConcState) : List Action → ConcState
  | [] => s
  | a :: rest => concRun (concStep s a) rest

/-- The atomic steps of one client operation: acquire the session, then
send the request. -/
def op_steps : List Action := [.acquire, .send]

/-- The schedule `l` is an interleaving of the step sequences of the two tasks:
the steps of each task keep their relative order, and the event loop may pick
either ready task at every point. -/
inductive IsInterleaving : List Action → List Action → List Action → Prop
  | nil_left (ys : List Action) : IsInterleaving [] ys ys
  | nil_right (xs : List Action) : IsInterleaving xs [] xs
  | cons_left {x : Action} {xs ys l : List Action} :
      IsInterleaving xs ys l → IsInterleaving (x :: xs) ys (x :: l)
  | cons_right {y : Action} {xs ys l : List Action} :
      IsInterleaving xs ys l → IsInterleaving xs (y :: ys) (y :: l)

/-- The fresh state of a just-constructed client: session absent, no
session ever constructed. -/
def freshConcState (api_key : String) : ConcState :=
  { client := { api_key := api_key, session := none }, sessions_created := 0 }

/-- Substring containment, for messages that must "contain" a text. -/
def strContains (s sub : String) : Prop := ∃ pre post, s = pre ++ sub ++ post

/-- A 2xx response falls through every branch of `_handle_error` without
raising. -/
theorem handle_error_of_success (r : Response) (hs : is_success r.status_code = true) :
    handle_error r = .ok () := by
  have h : 200 ≤ r.status_code ∧ r.status_code < 300 := by
    simpa [is_success] using hs
  have h1 : r.status_code ≠ 401 := by omega
  have h2 : r.status_code ≠ 403 := by omega
  have h3 : r.status_code ≠ 404 := by omega
  have h4 : r.status_code ≠ 422 := by omega
  have h5 : r.status_code ≠ 429 := by omega
  simp [handle_error, h1, h2, h3, h4, h5, hs]

/-- Once the session field holds a session, every further scheduled step
leaves the shared state untouched. -/
theorem concRun_of_some (l : List Action) (s : ConcState)
    (h : s.client.session.isSome = true) : concRun s l = s := by
  induction l with
  | nil => rfl
  | cons a rest ih =>
    have hstep : concStep s a = s := by
      cases a with
      | send => rfl
      | acquire =>
        cases hc : s.client.session with
        | some v => simp [concStep, hc]
        | none => rw [hc] at h; simp at h
    rw [concRun, hstep]
    exact ih

/-- Running a schedule that starts with an acquire from the fresh state
creates the session and then never touches it again. -/
theorem concRun_acquire_head (key : String) (l : List Action) :
    concRun (freshConcState key) (Action.acquire :: l) =
      { client := { api_key := key, session := some (newSession key) }
        sessions_created := 1 } := by
  show concRun (concStep (freshConcState key) .acquire) l = _
  have hstep : concStep (freshConcState key) .acquire =
      { client := { api_key := key, session := some (newSession key) }
        sessions_created := 1 } := rfl
  rw [hstep]
  exact concRun_of_some l _ rfl

/-- C1 (amended): a 401, 403, 404 or 429 response raises the
corresponding fixed-message `AirtableError`, each message non-empty; a 422
response whose body survives the two `get` calls raises the validation
`AirtableError` whose message embeds the nested `error.message` string
verbatim, with the generic fallback `Unknown error` label when the body is
an object without an `error` member.  (The unamended claim quantified over
all responses; see the counterexample for a 422 body that is not a JSON
object.) -/
theorem mapped_status_error_taxonomy (r : Response) :
    (r.status_code = 401 →
      handle_error r = .error (.airtable "Invalid API key. Check your AIRTABLE_API_KEY.") ∧
      "Invalid API key. Check your AIRTABLE_API_KEY." ≠ "") ∧
    (r.status_code = 403 →
      handle_error r =
        .error (.airtable "Permission denied. Your API key lacks access to this resource.") ∧
      "Permission denied. Your API key lacks access to this resource." ≠ "") ∧
    (r.status_code = 404 →
      handle_error r =
        .error (.airtable "Not found. Check that the base/table/record ID is correct.") ∧
      "Not found. Check that the base/table/record ID is correct." ≠ "") ∧
    (r.status_code = 429 →
      handle_error r =
        .error (.airtable "Rate limited. Airtable allows 5 requests/second. Wait and retry.") ∧
      "Rate limited. Airtable allows 5 requests/second. Wait and retry." ≠ "") ∧
    (∀ ev s, r.status_code = 422 →
      dictGet r.body "error" (Json.obj []) = .ok ev →
      dictGet ev "message" (Json.str "Unknown error") = .ok (Json.str s) →
      handle_error r = .error (.airtable ("Invalid request: " ++ s)) ∧
      strContains ("Invalid request: " ++ s) s ∧
      ("Invalid request: " ++ s) ≠ "") ∧
    (∀ ms, r.status_code = 422 → r.body = Json.obj ms → ms.lookup "error" = none →
      handle_error r = .error (.airtable ("Invalid request: " ++ "Unknown error"))) := by
  refine ⟨fun h => ⟨by simp [handle_error, h], by decide⟩,
    fun h => ⟨by simp [handle_error, h], by decide⟩,
    fun h => ⟨by simp [handle_error, h], by decide⟩,
    fun h => ⟨by simp [handle_error, h], by decide⟩,
    fun ev s h422 hev hm => ⟨by simp [handle_error, h422, hev, hm, pyStr], ?_, ?_⟩,
    fun ms h422 hb hlk => by simp [handle_error, h422, hb, dictGet, hlk, pyStr]⟩
  · exact ⟨"Invalid request: ", "", (String.append_empty _).symm⟩
  · intro hcon
    have hlen := congrArg String.length hcon
    simp [String.length_append] at hlen
    exact absurd hlen.1 (by decide)

/-- C1 counterexample to the unamended claim: a 422 response whose JSON
body is an empty array makes `_handle_error` call `.get` on a list, which
raises `AttributeError` — not an `AirtableError`. -/
theorem mapped_status_error_taxonomy_cex :
    handle_error { status_code := 422, body := Json.arr [], text := "" } =
      .error (.attrError "get") ∧
    PyErr.isAirtable (.attrError "get") = false :=
  ⟨rfl, rfl⟩

/-- C1 witness: a 422 response carrying a nested error message raises the
validation error with that message verbatim. -/
theorem mapped_status_error_taxonomy_witness :
    handle_error
        { status_code := 422
          body := Json.obj [("error", Json.obj [("message", Json.str "bad field")])]
          text := "" } =
      .error (.airtable ("Invalid request: " ++ "bad field")) :=
  ((mapped_status_error_taxonomy
      { status_code := 422
        body := Json.obj [("error", Json.obj [("message", Json.str "bad field")])]
        text := "" }).2.2.2.2.1
    (Json.obj [("message", Json.str "bad field")]) "bad field" rfl rfl rfl).1

/-- C2: `create_record` sends a POST whose body wraps the given fields in a
single-element `records` array, and on a 2xx response whose payload has a
non-empty `records` array it returns the first element of that array. -/
theorem create_record_request_and_unwrap (base tbl : String) (fields : Json)
    (r : Response) (ms : List (String × Json)) (rec0 : Json) (rest : List Json)
    (hs : is_success r.status_code = true)
    (hb : r.body = Json.obj ms)
    (hr : ms.lookup "records" = some (Json.arr (rec0 :: rest))) :
    (create_record_request base tbl fields).method = "POST" ∧
    (create_record_request base tbl fields).body =
      some (Json.obj [("records", Json.arr [Json.obj [("fields", fields)]])]) ∧
    (create_record_request base tbl fields).params = [] ∧
    create_record_result r = .ok rec0 :=
  ⟨rfl, rfl, rfl, by
    simp [create_record_result, handle_error_of_success r hs, hb, dictGetItem, hr, pyIndex]⟩

/-- C2 witness at a concrete call and stub response. -/
theorem create_record_request_and_unwrap_witness :
    (create_record_request "appB" "tasks" (Json.obj [("Name", Json.str "x")])).body =
      some (Json.obj [("records",
        Json.arr [Json.obj [("fields", Json.obj [("Name", Json.str "x")])]])]) ∧
    create_record_result
        { status_code := 200
          body := Json.obj [("records", Json.arr [Json.str "created"])]
          text := "" } =
      .ok (Json.str "created") :=
  ⟨(create_record_request_and_unwrap "appB" "tasks" (Json.obj [("Name", Json.str "x")])
      { status_code := 200, body := Json.obj [("records", Json.arr [Json.str "created"])],
        text := "" }
      [("records", Json.arr [Json.str "created"])] (Json.str "created") [] rfl rfl rfl).2.1,
   (create_record_request_and_unwrap "appB" "tasks" (Json.obj [("Name", Json.str "x")])
      { status_code := 200, body := Json.obj [("records", Json.arr [Json.str "created"])],
        text := "" }
      [("records", Json.arr [Json.str "created"])] (Json.str "created") [] rfl rfl rfl).2.2.2⟩

/-- C3 (amended): at the client core, `list_records` with both optional
arguments absent sends no `maxRecords` and no `filterByFormula` parameter,
and with both present sends both values unmodified.  At the tool surface of
`server.py`, an omitted `filter_formula` likewise adds no
`filterByFormula` parameter, but `max_records` has the integer default 100
and is always forwarded, so a tool call with neither optional argument
still sends `maxRecords=100`. -/
theorem list_records_param_passthrough (base tbl : String) (m : Int) (f : String) :
    (list_records_request base tbl none none).params = [] ∧
    (list_records_request base tbl (some m) (some f)).params =
      [("maxRecords", Json.num m), ("filterByFormula", Json.str f)] ∧
    (server_list_records base tbl).params = [("maxRecords", Json.num 100)] ∧
    (server_list_records base tbl m (some f)).params =
      [("maxRecords", Json.num m), ("filterByFormula", Json.str f)] :=
  ⟨rfl, rfl, rfl, rfl⟩

/-- C3 counterexample to the unamended claim: the `list_records` tool of
`server.py` called with neither optional argument still sends a
`maxRecords` parameter (value 100), because the tool signature defaults
`max_records` to the integer 100 rather than to `None`. -/
theorem list_records_param_passthrough_cex :
    (server_list_records "appX" "tblY").params = [("maxRecords", Json.num 100)] ∧
    (server_list_records "appX" "tblY").params ≠ [] :=
  ⟨rfl, by simp [server_list_records, list_records_request]⟩

/-- C4: construction with no credential argument and no environment value
raises the configuration-missing `AirtableError` with a non-empty message
and never builds a session; construction with a non-empty credential
succeeds with the session field absent (no session, hence no network
activity, at construction time). -/
theorem client_construction (env : Option String) (k : String) (hk : k ≠ "") :
    AirtableClient.init none none = .error (.airtable configMissingMsg) ∧
    configMissingMsg ≠ "" ∧
    AirtableClient.init (some k) env = .ok { api_key := k, session := none } :=
  ⟨rfl, by decide, by simp [AirtableClient.init, pyOrStr, hk]⟩

/-- C4 witness at a concrete key. -/
theorem client_construction_witness :
    AirtableClient.init none none = .error (.airtable configMissingMsg) ∧
    AirtableClient.init (some "patTOKEN") none =
      .ok { api_key := "patTOKEN", session := none } :=
  ⟨(client_construction none "patTOKEN" (by decide)).1,
   (client_construction none "patTOKEN" (by decide)).2.2⟩

/-- C5: `update_record` sends a PATCH whose body is exactly the supplied
fields wrapped under the `fields` key (no other members, no query
parameters), and on a 2xx response returns the whole JSON payload as-is,
not unwrapped from any array. -/
theorem update_record_patch_body_and_result (base tbl rid : String) (fields : Json)
    (r : Response) (hs : is_success r.status_code = true) :
    (update_record_request base tbl rid fields).method = "PATCH" ∧
    (update_record_request base tbl rid fields).body =
      some (Json.obj [("fields", fields)]) ∧
    (update_record_request base tbl rid fields).params = [] ∧
    update_record_result r = .ok r.body :=
  ⟨rfl, rfl, rfl, by simp [update_record_result, handle_error_of_success r hs]⟩

/-- C5 witness at a concrete call and stub response. -/
theorem update_record_patch_body_and_result_witness :
    (update_record_request "appB" "tasks" "rec1" (Json.obj [("Status", Json.str "Done")])).body =
      some (Json.obj [("fields", Json.obj [("Status", Json.str "Done")])]) ∧
    update_record_result
        { status_code := 200, body := Json.obj [("id", Json.str "rec1")], text := "" } =
      .ok (Json.obj [("id", Json.str "rec1")]) :=
  ⟨(update_record_patch_body_and_result "appB" "tasks" "rec1"
      (Json.obj [("Status", Json.str "Done")])
      { status_code := 200, body := Json.obj [("id", Json.str "rec1")], text := "" } rfl).2.1,
   (update_record_patch_body_and_result "appB" "tasks" "rec1"
      (Json.obj [("Status", Json.str "Done")])
      { status_code := 200, body := Json.obj [("id", Json.str "rec1")], text := "" } rfl).2.2.2⟩

/-- C6: any non-2xx status outside the five mapped codes raises the generic
upstream `AirtableError` whose message contains the numeric status code and
the raw response text, and every one of the five operations propagates it
(none returns a value for such a response). -/
theorem unmapped_status_generic_error (r : Response)
    (hs : is_success r.status_code = false)
    (h1 : r.status_code ≠ 401) (h2 : r.status_code ≠ 403) (h3 : r.status_code ≠ 404)
    (h4 : r.status_code ≠ 422) (h5 : r.status_code ≠ 429) :
    handle_error r = .error (.airtable
      ("Airtable API error: " ++ toString r.status_code ++ " - " ++ r.text)) ∧
    strContains ("Airtable API error: " ++ toString r.status_code ++ " - " ++ r.text)
      (toString r.status_code) ∧
    strContains ("Airtable API error: " ++ toString r.status_code ++ " - " ++ r.text)
      r.text ∧
    (∀ res, list_bases_result r ≠ .ok res) ∧
    (∀ res, list_tables_result r ≠ .ok res) ∧
    (∀ res, list_records_result r ≠ .ok res) ∧
    (∀ res, create_record_result r ≠ .ok res) ∧
    (∀ res, update_record_result r ≠ .ok res) := by
  have hmain : handle_error r = .error (.airtable
      ("Airtable API error: " ++ toString r.status_code ++ " - " ++ r.text)) := by
    simp [handle_error, h1, h2, h3, h4, h5, hs]
  refine ⟨hmain,
    ⟨"Airtable API error: ", " - " ++ r.text, String.append_assoc _ _ _⟩,
    ⟨"Airtable API error: " ++ toString r.status_code ++ " - ", "",
      (String.append_empty _).symm⟩, ?_, ?_, ?_, ?_, ?_⟩ <;>
  · intro res h
    simp [list_bases_result, list_tables_result, list_records_result,
      create_record_result, update_record_result, hmain] at h

/-- C6 witness at a stubbed 500 response. -/
theorem unmapped_status_generic_error_witness :
    handle_error { status_code := 500, body := Json.obj [], text := "boom" } =
      .error (.airtable ("Airtable API error: " ++ toString 500 ++ " - " ++ "boom")) ∧
    (∀ res, list_bases_result { status_code := 500, body := Json.obj [], text := "boom" } ≠
      .ok res) :=
  ⟨(unmapped_status_generic_error { status_code := 500, body := Json.obj [], text := "boom" }
      rfl (by decide) (by decide) (by decide) (by decide) (by decide)).1,
   (unmapped_status_generic_error { status_code := 500, body := Json.obj [], text := "boom" }
      rfl (by decide) (by decide) (by decide) (by decide) (by decide)).2.2.2.1⟩

/-- C7: the session lifecycle invariant — `close` is idempotent (a second
call is a no-op, not an error), `close` leaves the session field absent,
and `_get_client` after a `close` (or on any client) yields exactly one
live session: the stored one when present, a freshly constructed one
otherwise. -/
theorem session_lifecycle (c : AirtableClient) :
    AirtableClient.close (AirtableClient.close c) = AirtableClient.close c ∧
    (AirtableClient.close c).session = none ∧
    (c.session = none → AirtableClient.close c = c) ∧
    ((AirtableClient.close c).get_client).1.session = some (newSession c.api_key) ∧
    ((AirtableClient.close c).get_client).2 = newSession c.api_key ∧
    (∀ s, c.session = some s → c.get_client = (c, s)) ∧
    (c.session = none →
      c.get_client = ({ c with session := some (newSession c.api_key) }, newSession c.api_key)) := by
  rcases c with ⟨k, s⟩
  cases s <;>
    simp [AirtableClient.close, AirtableClient.get_client]

/-- C7 witness: double close on a client with a live session, and session
recreation after close. -/
theorem session_lifecycle_witness :
    AirtableClient.close (AirtableClient.close { api_key := "k", session := some (newSession "k") }) =
      AirtableClient.close { api_key := "k", session := some (newSession "k") } ∧
    (AirtableClient.close { api_key := "k", session := some (newSession "k") }).session = none ∧
    AirtableClient.close { api_key := "k", session := none } =
      { api_key := "k", session := none } ∧
    ((AirtableClient.close { api_key := "k", session := some (newSession "k") }).get_client).1.session =
      some (newSession "k") :=
  ⟨(session_lifecycle _).1, (session_lifecycle _).2.1,
   (session_lifecycle { api_key := "k", session := none }).2.2.1 rfl,
   (session_lifecycle { api_key := "k", session := some (newSession "k") }).2.2.2.1⟩

/-- C8: for every interleaving of the atomic steps of two operations
issued on a freshly constructed client, exactly one session is constructed
(the check-and-set in `_get_client` contains no suspension point, so it
runs atomically under the asyncio event loop). -/
theorem single_session_under_race (key : String) (l : List Action)
    (hl : IsInterleaving op_steps op_steps l) :
    (concRun (freshConcState key) l).sessions_created = 1 ∧
    (concRun (freshConcState key) l).client.session = some (newSession key) := by
  have hl₀ : IsInterleaving [Action.acquire, Action.send] [Action.acquire, Action.send] l := hl
  cases hl₀ with
  | cons_left h => exact ⟨by rw [concRun_acquire_head], by rw [concRun_acquire_head]⟩
  | cons_right h => exact ⟨by rw [concRun_acquire_head], by rw [concRun_acquire_head]⟩

/-- C8 witness at a fully overlapped schedule (both acquires before both
sends). -/
theorem single_session_under_race_witness :
    (concRun (freshConcState "k")
        [Action.acquire, Action.acquire, Action.send, Action.send]).sessions_created = 1 ∧
    (concRun (freshConcState "k")
        [Action.acquire, Action.acquire, Action.send, Action.send]).client.session =
      some (newSession "k") :=
  single_session_under_race "k" _
    (.cons_left (.cons_right (.cons_left (.nil_left _))))

/-- C9: an empty-string credential argument is falsy under the Python `or`,
so construction behaves exactly as with no argument — it falls back to the
environment value, raises the configuration-missing error when that value
is unset or empty, and a successfully constructed client never stores the
empty string as its key. -/
theorem empty_string_credential (arg env : Option String) (c : AirtableClient)
    (h : AirtableClient.init arg env = .ok c) :
    AirtableClient.init (some "") env = AirtableClient.init none env ∧
    AirtableClient.init (some "") none = .error (.airtable configMissingMsg) ∧
    AirtableClient.init (some "") (some "") = .error (.airtable configMissingMsg) ∧
    c.api_key ≠ "" := by
  refine ⟨rfl, rfl, rfl, ?_⟩
  rcases hp : pyOrStr arg env with _ | s
  · rw [AirtableClient.init, hp] at h
    simp at h
  · rw [AirtableClient.init, hp] at h
    by_cases hs : s = ""
    · subst hs
      simp at h
    · simp [hs] at h
      subst h
      simpa using hs

/-- C9 witness: with the credential argument empty and the environment
variable set, the stored key is the environment value, never the empty
string. -/
theorem empty_string_credential_witness :
    AirtableClient.init (some "") (some "envkey") = AirtableClient.init none (some "envkey") ∧
    AirtableClient.init (some "") none = .error (.airtable configMissingMsg) ∧
    ({ api_key := "envkey", session := none } : AirtableClient).api_key ≠ "" :=
  ⟨(empty_string_credential none (some "envkey") { api_key := "envkey", session := none } rfl).1,
   (empty_string_credential none (some "envkey") { api_key := "envkey", session := none } rfl).2.1,
   (empty_string_credential none (some "envkey") { api_key := "envkey", session := none } rfl).2.2.2⟩

/-- C10: on a 2xx response whose object payload lacks the expected
collection key, the three list operations return the empty array via the
defaulted `get`, while `create_record` subscripts the missing `records`
key and so fails with a `KeyError`, which is not an `AirtableError`. -/
theorem missing_collection_key_behavior (r : Response) (ms : List (String × Json))
    (hs : is_success r.status_code = true) (hb : r.body = Json.obj ms)
    (h1 : ms.lookup "bases" = none) (h2 : ms.lookup "tables" = none)
    (h3 : ms.lookup "records" = none) :
    list_bases_result r = .ok (Json.arr []) ∧
    list_tables_result r = .ok (Json.arr []) ∧
    list_records_result r = .ok (Json.arr []) ∧
    create_record_result r = .error (.keyError "records") ∧
    PyErr.isAirtable (.keyError "records") = false := by
  refine ⟨?_, ?_, ?_, ?_, rfl⟩ <;>
    simp [list_bases_result, list_tables_result, list_records_result, create_record_result,
      handle_error_of_success r hs, hb, dictGet, dictGetItem, h1, h2, h3]

/-- C10 witness at a 2xx response with an empty object payload. -/
theorem missing_collection_key_behavior_witness :
    list_bases_result { status_code := 200, body := Json.obj [], text := "" } =
      .ok (Json.arr []) ∧
    create_record_result { status_code := 200, body := Json.obj [], text := "" } =
      .error (.keyError "records") :=
  ⟨(missing_collection_key_behavior { status_code := 200, body := Json.obj [], text := "" }
      [] rfl rfl rfl rfl rfl).1,
   (missing_collection_key_behavior { status_code := 200, body := Json.obj [], text := "" }
      [] rfl rfl rfl rfl rfl).2.2.2.1⟩

end AirtableMCP
